/-
Verification of the veitur utility-dashboard data engine (src/utils.py)
against its natural-language specification.

The engine is shallowly embedded over exact rationals (ℚ): pandas columns
become functions `ℕ → ℚ` indexed by the day offset inside the generated
range, the numpy global random state becomes an explicit stream `ℕ → ℚ`
of realized draws together with a cursor, and the streamlit session state
becomes an explicit `GenState` value threaded through calls.  Floating
tolerance claims are settled by exact rational (in)equalities.
-/
import Mathlib

namespace Veitur

/-! ### Calendar model

`date`, `dt.month`, `dt.year`, `dt.daysinmonth`, `dt.isocalendar()` and
`timedelta` arithmetic from the source are modelled over a plain
year/month/day record with proleptic-Gregorian rules. -/

structure Day where
  year : Int
  month : Nat
  day : Nat
deriving DecidableEq, Inhabited

/-- Gregorian leap-year rule. -/
def isLeap (y : Int) : Bool := (y % 4 == 0 && y % 100 != 0) || y % 400 == 0

/-- `dt.daysinmonth` for a given year and month. -/
def daysInMonth (y : Int) (m : Nat) : Nat :=
  if m = 2 then (if isLeap y then 29 else 28)
  else if m = 4 ∨ m = 6 ∨ m = 9 ∨ m = 11 then 30
  else 31

/-- Day count since 1970-01-01 (days-from-civil algorithm, floor division). -/
def rataDie (d : Day) : Int :=
  let y : Int := if d.month ≤ 2 then d.year - 1 else d.year
  let m : Int := d.month
  let era : Int := Int.fdiv y 400
  let yoe : Int := y - era * 400
  let doy : Int := (153 * (if 2 < d.month then m - 3 else m + 9) + 2) / 5 + (d.day : Int) - 1
  let doe : Int := yoe * 365 + yoe / 4 - yoe / 100 + doy
  era * 146097 + doe - 719468

/-- The calendar day after `d`. -/
def nextDay (d : Day) : Day :=
  if d.day < daysInMonth d.year d.month then ⟨d.year, d.month, d.day + 1⟩
  else if d.month < 12 then ⟨d.year, d.month + 1, 1⟩
  else ⟨d.year + 1, 1, 1⟩

/-- `d` advanced by `k` calendar days. -/
def addDays (d : Day) : Nat → Day
  | 0 => d
  | k + 1 => addDays (nextDay d) k

/-- Length of the inclusive `pd.date_range(start, end)` (empty when start > end). -/
def numDays (sd ed : Day) : Nat := (rataDie ed - rataDie sd + 1).toNat

/-- ISO weekday, Monday = 1 … Sunday = 7 (1970-01-01 was a Thursday). -/
def dayOfWeek (d : Day) : Nat := ((rataDie d + 3) % 7).toNat + 1

/-- Days in the months of year `y` strictly before month `m` (1-based). -/
def daysBeforeMonth (y : Int) (m : Nat) : Nat :=
  ((List.range (m - 1)).map (fun k => daysInMonth y (k + 1))).sum

/-- Ordinal day of the year, 1-based. -/
def dayOfYear (d : Day) : Nat := daysBeforeMonth d.year d.month + d.day

/-- Helper for the ISO 8601 week count of a year. -/
def isoPY (y : Int) : Int := (y + Int.fdiv y 4 - Int.fdiv y 100 + Int.fdiv y 400) % 7

/-- Number of ISO weeks in ISO year `y` (52 or 53). -/
def isoWeeksInYear (y : Int) : Nat :=
  if isoPY y = 4 ∨ isoPY (y - 1) = 3 then 53 else 52

/-- `(ISO week-based year, ISO week number)` of a date, as produced by
`date.dt.isocalendar().year` and `.week`. -/
def isoWeekKey (d : Day) : Int × Nat :=
  let w : Int := ((dayOfYear d : Int) - (dayOfWeek d : Int) + 10) / 7
  if w < 1 then (d.year - 1, isoWeeksInYear (d.year - 1))
  else if (isoWeeksInYear d.year : Int) < w then (d.year + 1, 1)
  else (d.year, w.toNat)

/-! ### Constants (src/utils.py lines 52-94) -/

def DAILY_FIXED_COST : ℚ := 100
def MONTHLY_EQUALIZATION : ℚ := 200
def ELECTRICITY_UNIT_COST : ℚ := 7
def HOT_WATER_UNIT_COST : ℚ := 150
def TAX_RATE : ℚ := 1/10

def EV_DAILY_KWH : ℚ := 10
def ELECTRIC_HOT_TUB_DAILY_KWH : ℚ := 8
def GEOTHERMAL_HOT_TUB_DAILY_M3 : ℚ := 1/5
def HEAT_PUMP_ELEC_REDUCTION_KWH : ℚ := 3
def HEAT_PUMP_WATER_REDUCTION_M3 : ℚ := 1/20

/-- Energy usage categories (kWh totals for the period), in dict insertion
order of the source. -/
def ENERGY_CATEGORIES : List (String × ℚ) :=
  [("energy_ev", 266), ("energy_hot_tub", 213), ("energy_refrigerator", 40),
   ("energy_freezer", 53), ("energy_cooker", 32), ("energy_dishwasher", 26),
   ("energy_washing_machine", 21), ("energy_dryer", 66), ("energy_lighting", 26),
   ("energy_heating", 80), ("energy_other", 53)]

/-- Hot water usage categories (m³ totals for the period).  Defined in the
source but never consumed by any other function. -/
def WATER_CATEGORIES : List (String × ℚ) :=
  [("water_hot_tub", 180), ("water_shower", 150), ("water_radiators", 120),
   ("water_faucets", 60), ("water_dishwasher", 30), ("water_washing_machine", 24),
   ("water_floor_heating", 36)]

/-- `sum(ENERGY_CATEGORIES.values())` (= 876). -/
def total_energy : ℚ := (ENERGY_CATEGORIES.map Prod.snd).sum

/-! ### Seasonal factors (src/utils.py lines 106-112, 172-180) -/

def winterElecFactor (m : Nat) : ℚ := if m = 12 ∨ m = 1 ∨ m = 2 then 3/2 else 1
def fallSpringElecFactor (m : Nat) : ℚ := if m = 3 ∨ m = 4 ∨ m = 10 ∨ m = 11 then 6/5 else 1
def winterWaterFactor (m : Nat) : ℚ := if m = 12 ∨ m = 1 ∨ m = 2 then 13/10 else 1
def fallSpringWaterFactor (m : Nat) : ℚ := if m = 3 ∨ m = 4 ∨ m = 10 ∨ m = 11 then 11/10 else 1

/-- Mild summer boost for refrigeration/freezing (June, July, August). -/
def summerFactor (m : Nat) : ℚ := if m = 6 ∨ m = 7 ∨ m = 8 then 6/5 else 1

/-- `.clip(lower=0)` applied to a single value. -/
def clip0 (x : ℚ) : ℚ := max 0 x

/-! ### Generator state

`generate_data` reads the preference flags from `st.session_state` and
caches the base stochastic series there under the key
`f"{start_date}_{end_date}"`; numpy's global random state is the draw
cursor.  `rng : ℕ → ℚ` is the stream of realized random draws (a call
`np.random.normal`/`np.random.uniform` of length `n` returns the next `n`
stream values and advances the cursor by `n`). -/

/-- User preference flags (`has_hot_tub`, `hot_tub_type == 'electric'`,
`has_ev`, `has_heat_pump`).  When `has_hot_tub` is false the tub type is
irrelevant, matching `hot_tub_type = ... if has_hot_tub else None`. -/
structure Prefs where
  has_hot_tub : Bool
  hot_tub_electric : Bool
  has_ev : Bool
  has_heat_pump : Bool
deriving DecidableEq

/-- The mutable state visible to `generate_data`: the numpy draw cursor and
the session-state cache `('date_key', base_elec, base_water)`. -/
structure GenState where
  pos : Nat
  cache : Option ((Day × Day) × (Nat → ℚ) × (Nat → ℚ))

/-! ### Per-row cost computation (src/utils.py lines 221-229) -/

structure CostCols where
  usage_cost : ℚ
  tax : ℚ
  total : ℚ
deriving DecidableEq

/-- `compute_cost_columns` restricted to one row: given that row's
`cost_fixed`, `cost_equalization` and usage value, produce the derived
`{usage_cost, tax, total}` cells. -/
def compute_cost_columns (cost_fixed cost_equalization usage unit_price : ℚ) : CostCols :=
  let usage_cost := usage * unit_price
  let tax := usage_cost * TAX_RATE
  { usage_cost := usage_cost, tax := tax,
    total := cost_fixed + cost_equalization + usage_cost + tax }

/-! ### generate_data (src/utils.py lines 97-219), column by column -/

/-- `len(df)`: number of days in the inclusive range. -/
def gen_n (sd ed : Day) : Nat := numDays sd ed

/-- The `date` column. -/
def gen_date (sd : Day) (i : Nat) : Day := addDays sd i

/-- The `month` column (line 108). -/
def gen_month (sd : Day) (i : Nat) : Nat := (gen_date sd i).month

/-- Cache consultation (line 122): the stored base series are reused when
`base_data` exists and the stored `date_key` equals the current one. -/
def gen_cacheHit (gs : GenState) (sd ed : Day) : Option ((Nat → ℚ) × (Nat → ℚ)) :=
  match gs.cache with
  | some (k, be, bw) => if k = (sd, ed) then some (be, bw) else none
  | none => none

/-- `base_elec` (line 124): fresh normal(15,3) draws times the seasonal
factors, or the cached series. -/
def gen_base_elec (rng : Nat → ℚ) (gs : GenState) (sd ed : Day) : Nat → ℚ :=
  match gen_cacheHit gs sd ed with
  | some bebw => bebw.1
  | none => fun i =>
      rng (gs.pos + i) * winterElecFactor (gen_month sd i) * fallSpringElecFactor (gen_month sd i)

/-- `base_water` (line 127): fresh normal(0.3,0.05) draws times the seasonal
factors, or the cached series. -/
def gen_base_water (rng : Nat → ℚ) (gs : GenState) (sd ed : Day) : Nat → ℚ :=
  match gen_cacheHit gs sd ed with
  | some bebw => bebw.2
  | none => fun i =>
      rng (gs.pos + gen_n sd ed + i) * winterWaterFactor (gen_month sd i) *
        fallSpringWaterFactor (gen_month sd i)

/-- Draw cursor after the base-series block: two arrays of `n` normal draws
are consumed only when the cache missed. -/
def gen_posBase (gs : GenState) (sd ed : Day) : Nat :=
  match gen_cacheHit gs sd ed with
  | some _ => gs.pos
  | none => gs.pos + 2 * gen_n sd ed

/-- Fixed daily adjustment arrays (lines 141-145): `np.ones(len(df)) * c`
when the flag is active, scalar 0 otherwise. -/
def gen_ev_usage (p : Prefs) (_ : Nat) : ℚ :=
  if p.has_ev then EV_DAILY_KWH else 0

def gen_electric_hot_tub_usage (p : Prefs) (_ : Nat) : ℚ :=
  if p.has_hot_tub && p.hot_tub_electric then ELECTRIC_HOT_TUB_DAILY_KWH else 0

def gen_geothermal_hot_tub_usage (p : Prefs) (_ : Nat) : ℚ :=
  if p.has_hot_tub && !p.hot_tub_electric then GEOTHERMAL_HOT_TUB_DAILY_M3 else 0

def gen_elec_reduction (p : Prefs) (_ : Nat) : ℚ :=
  if p.has_heat_pump then HEAT_PUMP_ELEC_REDUCTION_KWH else 0

def gen_water_reduction (p : Prefs) (_ : Nat) : ℚ :=
  if p.has_heat_pump then HEAT_PUMP_WATER_REDUCTION_M3 else 0

/-- Draw cursor at the start of the `energy_hot_tub` block: the gated
`energy_ev` draw (line 154) is consumed only when `has_ev`. -/
def gen_posTub (gs : GenState) (p : Prefs) (sd ed : Day) : Nat :=
  gen_posBase gs sd ed + (if p.has_ev then gen_n sd ed else 0)

/-- Draw cursor at the start of the ungated-category loop (line 164). -/
def gen_posCats (gs : GenState) (p : Prefs) (sd ed : Day) : Nat :=
  gen_posTub gs p sd ed + (if p.has_hot_tub && p.hot_tub_electric then gen_n sd ed else 0)

/-- `energy_ev` before normalization (lines 153-156):
`total / days_in_period * uniform(0.8, 1.2)` when `has_ev`, else 0. -/
def gen_raw_energy_ev (rng : Nat → ℚ) (gs : GenState) (p : Prefs) (sd ed : Day) (i : Nat) : ℚ :=
  if p.has_ev then 266 / (gen_n sd ed : ℚ) * rng (gen_posBase gs sd ed + i) else 0

/-- `energy_hot_tub` before normalization (lines 158-161). -/
def gen_raw_energy_hot_tub (rng : Nat → ℚ) (gs : GenState) (p : Prefs) (sd ed : Day) (i : Nat) : ℚ :=
  if p.has_hot_tub && p.hot_tub_electric then
    213 / (gen_n sd ed : ℚ) * rng (gen_posTub gs p sd ed + i)
  else 0

/-- One ungated category before normalization (lines 164-184):
`daily_base * variation * seasonal_factor`, where `slot` is the category's
position in the loop (draws are consumed in dict order) and `seasonal` its
category-specific factor. -/
def gen_raw_cat (rng : Nat → ℚ) (gs : GenState) (p : Prefs) (sd ed : Day)
    (total : ℚ) (slot : Nat) (seasonal : Nat → ℚ) (i : Nat) : ℚ :=
  total / (gen_n sd ed : ℚ) * rng (gen_posCats gs p sd ed + slot * gen_n sd ed + i) *
    seasonal (gen_month sd i)

def gen_raw_energy_refrigerator (rng : Nat → ℚ) (gs : GenState) (p : Prefs) (sd ed : Day) : Nat → ℚ :=
  gen_raw_cat rng gs p sd ed 40 0 summerFactor

def gen_raw_energy_freezer (rng : Nat → ℚ) (gs : GenState) (p : Prefs) (sd ed : Day) : Nat → ℚ :=
  gen_raw_cat rng gs p sd ed 53 1 summerFactor

def gen_raw_energy_cooker (rng : Nat → ℚ) (gs : GenState) (p : Prefs) (sd ed : Day) : Nat → ℚ :=
  gen_raw_cat rng gs p sd ed 32 2 (fun _ => 1)

def gen_raw_energy_dishwasher (rng : Nat → ℚ) (gs : GenState) (p : Prefs) (sd ed : Day) : Nat → ℚ :=
  gen_raw_cat rng gs p sd ed 26 3 (fun _ => 1)

def gen_raw_energy_washing_machine (rng : Nat → ℚ) (gs : GenState) (p : Prefs) (sd ed : Day) : Nat → ℚ :=
  gen_raw_cat rng gs p sd ed 21 4 (fun _ => 1)

def gen_raw_energy_dryer (rng : Nat → ℚ) (gs : GenState) (p : Prefs) (sd ed : Day) : Nat → ℚ :=
  gen_raw_cat rng gs p sd ed 66 5 (fun _ => 1)

def gen_raw_energy_lighting (rng : Nat → ℚ) (gs : GenState) (p : Prefs) (sd ed : Day) : Nat → ℚ :=
  gen_raw_cat rng gs p sd ed 26 6 (fun _ => 1)

def gen_raw_energy_heating (rng : Nat → ℚ) (gs : GenState) (p : Prefs) (sd ed : Day) : Nat → ℚ :=
  gen_raw_cat rng gs p sd ed 80 7
    (fun m => winterElecFactor m * fallSpringElecFactor m)

def gen_raw_energy_other (rng : Nat → ℚ) (gs : GenState) (p : Prefs) (sd ed : Day) : Nat → ℚ :=
  gen_raw_cat rng gs p sd ed 53 8 (fun _ => 1)

/-- Draw cursor after `generate_data` returns: 9 ungated category arrays of
`n` uniform draws follow the gated ones. -/
def gen_posEnd (gs : GenState) (p : Prefs) (sd ed : Day) : Nat :=
  gen_posCats gs p sd ed + 9 * gen_n sd ed

/-- Sum over one day of all 11 `energy_` columns before normalization. -/
def gen_rawCatDay (rng : Nat → ℚ) (gs : GenState) (p : Prefs) (sd ed : Day) (i : Nat) : ℚ :=
  gen_raw_energy_ev rng gs p sd ed i + gen_raw_energy_hot_tub rng gs p sd ed i +
  gen_raw_energy_refrigerator rng gs p sd ed i + gen_raw_energy_freezer rng gs p sd ed i +
  gen_raw_energy_cooker rng gs p sd ed i + gen_raw_energy_dishwasher rng gs p sd ed i +
  gen_raw_energy_washing_machine rng gs p sd ed i + gen_raw_energy_dryer rng gs p sd ed i +
  gen_raw_energy_lighting rng gs p sd ed i + gen_raw_energy_heating rng gs p sd ed i +
  gen_raw_energy_other rng gs p sd ed i

/-- `current_sum = df[energy_cols].sum().sum()` (line 189). -/
def gen_rawSum (rng : Nat → ℚ) (gs : GenState) (p : Prefs) (sd ed : Day) : ℚ :=
  ∑ i ∈ Finset.range (gen_n sd ed), gen_rawCatDay rng gs p sd ed i

/-- The normalization factor (lines 191-195): `total_energy / current_sum`
when `current_sum > 0`, otherwise the columns are left untouched. -/
def gen_scale (rng : Nat → ℚ) (gs : GenState) (p : Prefs) (sd ed : Day) : ℚ :=
  if 0 < gen_rawSum rng gs p sd ed then total_energy / gen_rawSum rng gs p sd ed else 1

def gen_energy_ev (rng : Nat → ℚ) (gs : GenState) (p : Prefs) (sd ed : Day) (i : Nat) : ℚ :=
  gen_raw_energy_ev rng gs p sd ed i * gen_scale rng gs p sd ed

def gen_energy_hot_tub (rng : Nat → ℚ) (gs : GenState) (p : Prefs) (sd ed : Day) (i : Nat) : ℚ :=
  gen_raw_energy_hot_tub rng gs p sd ed i * gen_scale rng gs p sd ed

def gen_energy_refrigerator (rng : Nat → ℚ) (gs : GenState) (p : Prefs) (sd ed : Day) (i : Nat) : ℚ :=
  gen_raw_energy_refrigerator rng gs p sd ed i * gen_scale rng gs p sd ed

def gen_energy_freezer (rng : Nat → ℚ) (gs : GenState) (p : Prefs) (sd ed : Day) (i : Nat) : ℚ :=
  gen_raw_energy_freezer rng gs p sd ed i * gen_scale rng gs p sd ed

def gen_energy_cooker (rng : Nat → ℚ) (gs : GenState) (p : Prefs) (sd ed : Day) (i : Nat) : ℚ :=
  gen_raw_energy_cooker rng gs p sd ed i * gen_scale rng gs p sd ed

def gen_energy_dishwasher (rng : Nat → ℚ) (gs : GenState) (p : Prefs) (sd ed : Day) (i : Nat) : ℚ :=
  gen_raw_energy_dishwasher rng gs p sd ed i * gen_scale rng gs p sd ed

def gen_energy_washing_machine (rng : Nat → ℚ) (gs : GenState) (p : Prefs) (sd ed : Day) (i : Nat) : ℚ :=
  gen_raw_energy_washing_machine rng gs p sd ed i * gen_scale rng gs p sd ed

def gen_energy_dryer (rng : Nat → ℚ) (gs : GenState) (p : Prefs) (sd ed : Day) (i : Nat) : ℚ :=
  gen_raw_energy_dryer rng gs p sd ed i * gen_scale rng gs p sd ed

def gen_energy_lighting (rng : Nat → ℚ) (gs : GenState) (p : Prefs) (sd ed : Day) (i : Nat) : ℚ :=
  gen_raw_energy_lighting rng gs p sd ed i * gen_scale rng gs p sd ed

def gen_energy_heating (rng : Nat → ℚ) (gs : GenState) (p : Prefs) (sd ed : Day) (i : Nat) : ℚ :=
  gen_raw_energy_heating rng gs p sd ed i * gen_scale rng gs p sd ed

def gen_energy_other (rng : Nat → ℚ) (gs : GenState) (p : Prefs) (sd ed : Day) (i : Nat) : ℚ :=
  gen_raw_energy_other rng gs p sd ed i * gen_scale rng gs p sd ed

/-- Sum over one day of all 11 normalized `energy_` columns
(the `+=` loop of lines 199-200, in dict order). -/
def gen_catSum (rng : Nat → ℚ) (gs : GenState) (p : Prefs) (sd ed : Day) (i : Nat) : ℚ :=
  gen_energy_ev rng gs p sd ed i + gen_energy_hot_tub rng gs p sd ed i +
  gen_energy_refrigerator rng gs p sd ed i + gen_energy_freezer rng gs p sd ed i +
  gen_energy_cooker rng gs p sd ed i + gen_energy_dishwasher rng gs p sd ed i +
  gen_energy_washing_machine rng gs p sd ed i + gen_energy_dryer rng gs p sd ed i +
  gen_energy_lighting rng gs p sd ed i + gen_energy_heating rng gs p sd ed i +
  gen_energy_other rng gs p sd ed i

/-- `elec_usage` (lines 197-203): base minus heat-pump reduction plus all
energy categories, clipped at 0. -/
def gen_elec_usage (rng : Nat → ℚ) (gs : GenState) (p : Prefs) (sd ed : Day) (i : Nat) : ℚ :=
  clip0 (gen_base_elec rng gs sd ed i - gen_elec_reduction p i + gen_catSum rng gs p sd ed i)

/-- `water_usage` (lines 205-208): base plus geothermal tub minus heat-pump
reduction, clipped at 0. -/
def gen_water_usage (rng : Nat → ℚ) (gs : GenState) (p : Prefs) (sd ed : Day) (i : Nat) : ℚ :=
  clip0 (gen_base_water rng gs sd ed i + gen_geothermal_hot_tub_usage p i -
    gen_water_reduction p i)

/-- `cost_fixed` (line 212). -/
def gen_cost_fixed (_ : Nat) : ℚ := DAILY_FIXED_COST

/-- `cost_equalization` (lines 211-213): the monthly amount divided by that
row's days-in-month. -/
def gen_cost_equalization (sd : Day) (i : Nat) : ℚ :=
  MONTHLY_EQUALIZATION / (daysInMonth (gen_date sd i).year (gen_date sd i).month : ℚ)

def gen_elec_cost (rng : Nat → ℚ) (gs : GenState) (p : Prefs) (sd ed : Day) (i : Nat) : CostCols :=
  compute_cost_columns (gen_cost_fixed i) (gen_cost_equalization sd i)
    (gen_elec_usage rng gs p sd ed i) ELECTRICITY_UNIT_COST

def gen_water_cost (rng : Nat → ℚ) (gs : GenState) (p : Prefs) (sd ed : Day) (i : Nat) : CostCols :=
  compute_cost_columns (gen_cost_fixed i) (gen_cost_equalization sd i)
    (gen_water_usage rng gs p sd ed i) HOT_WATER_UNIT_COST

/-! ### The daily table -/

/-- One row of the generated daily dataframe, with the columns
`generate_data` produces (in its insertion order). -/
structure Row where
  date : Day
  month : Nat
  energy_ev : ℚ
  energy_hot_tub : ℚ
  energy_refrigerator : ℚ
  energy_freezer : ℚ
  energy_cooker : ℚ
  energy_dishwasher : ℚ
  energy_washing_machine : ℚ
  energy_dryer : ℚ
  energy_lighting : ℚ
  energy_heating : ℚ
  energy_other : ℚ
  elec_usage : ℚ
  water_usage : ℚ
  cost_fixed : ℚ
  cost_equalization : ℚ
  elec_usage_cost : ℚ
  elec_tax : ℚ
  elec_total : ℚ
  water_usage_cost : ℚ
  water_tax : ℚ
  water_total : ℚ
deriving DecidableEq, Inhabited

/-- Row `i` of the generated table. -/
def gen_row (rng : Nat → ℚ) (gs : GenState) (p : Prefs) (sd ed : Day) (i : Nat) : Row :=
  { date := gen_date sd i
    month := gen_month sd i
    energy_ev := gen_energy_ev rng gs p sd ed i
    energy_hot_tub := gen_energy_hot_tub rng gs p sd ed i
    energy_refrigerator := gen_energy_refrigerator rng gs p sd ed i
    energy_freezer := gen_energy_freezer rng gs p sd ed i
    energy_cooker := gen_energy_cooker rng gs p sd ed i
    energy_dishwasher := gen_energy_dishwasher rng gs p sd ed i
    energy_washing_machine := gen_energy_washing_machine rng gs p sd ed i
    energy_dryer := gen_energy_dryer rng gs p sd ed i
    energy_lighting := gen_energy_lighting rng gs p sd ed i
    energy_heating := gen_energy_heating rng gs p sd ed i
    energy_other := gen_energy_other rng gs p sd ed i
    elec_usage := gen_elec_usage rng gs p sd ed i
    water_usage := gen_water_usage rng gs p sd ed i
    cost_fixed := gen_cost_fixed i
    cost_equalization := gen_cost_equalization sd i
    elec_usage_cost := (gen_elec_cost rng gs p sd ed i).usage_cost
    elec_tax := (gen_elec_cost rng gs p sd ed i).tax
    elec_total := (gen_elec_cost rng gs p sd ed i).total
    water_usage_cost := (gen_water_cost rng gs p sd ed i).usage_cost
    water_tax := (gen_water_cost rng gs p sd ed i).tax
    water_total := (gen_water_cost rng gs p sd ed i).total }

/-- Session cache after a call (lines 122-138): a miss stores the freshly
drawn base series under the current date key, a hit leaves the cache as is. -/
def gen_cacheOut (rng : Nat → ℚ) (gs : GenState) (sd ed : Day) :
    Option ((Day × Day) × (Nat → ℚ) × (Nat → ℚ)) :=
  match gen_cacheHit gs sd ed with
  | some _ => gs.cache
  | none => some ((sd, ed), gen_base_elec rng gs sd ed, gen_base_water rng gs sd ed)

/-- `generate_data(start_date, end_date)`: returns the daily table together
with the mutated global state (draw cursor and session cache). -/
def generate_data (rng : Nat → ℚ) (gs : GenState) (p : Prefs) (sd ed : Day) :
    List Row × GenState :=
  ((List.range (gen_n sd ed)).map (gen_row rng gs p sd ed),
   { pos := gen_posEnd gs p sd ed, cache := gen_cacheOut rng gs sd ed })

/-! ### Aggregation (src/utils.py lines 231-297) -/

/-- The `(year, month)` groupby key of a row. -/
def monthKey (r : Row) : Int × Nat := (r.date.year, r.date.month)

/-- The `(isocalendar().year, isocalendar().week)` groupby key of a row. -/
def weekKey (r : Row) : Int × Nat := isoWeekKey r.date

/-- Lexicographic order on groupby keys; pandas emits groups in ascending
key order (`sort=True` default). -/
def keyLE (a b : Int × Nat) : Prop := a.1 < b.1 ∨ (a.1 = b.1 ∧ a.2 ≤ b.2)

instance : DecidableRel keyLE := fun a b => by unfold keyLE; infer_instance

instance : IsTotal (Int × Nat) keyLE :=
  ⟨fun a b => by
    unfold keyLE
    rcases lt_trichotomy a.1 b.1 with h | h | h
    · exact Or.inl (Or.inl h)
    · rcases Nat.le_total a.2 b.2 with h2 | h2
      · exact Or.inl (Or.inr ⟨h, h2⟩)
      · exact Or.inr (Or.inr ⟨h.symm, h2⟩)
    · exact Or.inr (Or.inl h)⟩

/-- The distinct groupby keys appearing in a table, in ascending order. -/
def sortKeys (l : List (Int × Nat)) : List (Int × Nat) :=
  l.dedup.insertionSort keyLE

/-- The rows of a group. -/
def groupRows (key : Row → Int × Nat) (rows : List Row) (k : Int × Nat) : List Row :=
  rows.filter (fun r => decide (key r = k))

/-- `"sum"` aggregation of one column over a group. -/
def sumCol (g : List Row) (f : Row → ℚ) : ℚ := (g.map f).sum

/-- The aggregated output row for one group: every numeric column in the
`agg_dict` is summed; `date` and `month` are supplied by the caller
(`"first"` for weekly, forced first-of-month plus key month for monthly;
the weekly output drops the `month` column, modelled as 0). -/
def sumRow (g : List Row) (d : Day) (m : Nat) : Row :=
  { date := d
    month := m
    energy_ev := sumCol g (fun r => r.energy_ev)
    energy_hot_tub := sumCol g (fun r => r.energy_hot_tub)
    energy_refrigerator := sumCol g (fun r => r.energy_refrigerator)
    energy_freezer := sumCol g (fun r => r.energy_freezer)
    energy_cooker := sumCol g (fun r => r.energy_cooker)
    energy_dishwasher := sumCol g (fun r => r.energy_dishwasher)
    energy_washing_machine := sumCol g (fun r => r.energy_washing_machine)
    energy_dryer := sumCol g (fun r => r.energy_dryer)
    energy_lighting := sumCol g (fun r => r.energy_lighting)
    energy_heating := sumCol g (fun r => r.energy_heating)
    energy_other := sumCol g (fun r => r.energy_other)
    elec_usage := sumCol g (fun r => r.elec_usage)
    water_usage := sumCol g (fun r => r.water_usage)
    cost_fixed := sumCol g (fun r => r.cost_fixed)
    cost_equalization := sumCol g (fun r => r.cost_equalization)
    elec_usage_cost := sumCol g (fun r => r.elec_usage_cost)
    elec_tax := sumCol g (fun r => r.elec_tax)
    elec_total := sumCol g (fun r => r.elec_total)
    water_usage_cost := sumCol g (fun r => r.water_usage_cost)
    water_tax := sumCol g (fun r => r.water_tax)
    water_total := sumCol g (fun r => r.water_total) }

/-- Weekly aggregation (lines 242-266): group by ISO year/week, sum every
`agg_dict` column, `date = "first"` date of the group. -/
def aggregateWeekly (rows : List Row) : List Row :=
  (sortKeys (rows.map weekKey)).map fun k =>
    let g := groupRows weekKey rows k
    sumRow g g.headI.date 0

/-- Monthly aggregation (lines 268-295): group by calendar year/month, sum
every `agg_dict` column, then force `date` to the first day of the month. -/
def aggregateMonthly (rows : List Row) : List Row :=
  (sortKeys (rows.map monthKey)).map fun k =>
    let g := groupRows monthKey rows k
    sumRow g ⟨k.1, k.2, 1⟩ k.2

inductive Grain | daily | weekly | monthly
deriving DecidableEq

/-- `aggregate_by_time_period(df, period)` for the three supported grains. -/
def aggregate_by_time_period (rows : List Row) : Grain → List Row
  | .daily => rows
  | .weekly => aggregateWeekly rows
  | .monthly => aggregateMonthly rows

/-! ### Summary queries (src/utils.py lines 299-450) -/

/-- `get_icelandic_month` via the `ICELANDIC_MONTHS` table (default `""`). -/
def get_icelandic_month (m : Nat) : String :=
  match m with
  | 1 => "janúar" | 2 => "febrúar" | 3 => "mars" | 4 => "apríl"
  | 5 => "maí" | 6 => "júní" | 7 => "júlí" | 8 => "ágúst"
  | 9 => "september" | 10 => "október" | 11 => "nóvember" | 12 => "desember"
  | _ => ""

/-- One row of the monthly cost summary table. -/
structure MonthlyCost where
  year : Int
  month : Nat
  elec_total : ℚ
  water_total : ℚ
  total : ℚ
  month_name : String
deriving DecidableEq, Inhabited

/-- `calculate_monthly_costs` (lines 428-450): group the daily table by
year/month, sum `elec_total` and `water_total`, add `total` as their sum and
the Icelandic month name, sorted by (year, month). -/
def calculate_monthly_costs (rows : List Row) : List MonthlyCost :=
  (sortKeys (rows.map monthKey)).map fun k =>
    let g := groupRows monthKey rows k
    let e := sumCol g (fun r => r.elec_total)
    let w := sumCol g (fun r => r.water_total)
    { year := k.1, month := k.2, elec_total := e, water_total := w,
      total := e + w, month_name := get_icelandic_month k.2 }

/-- `get_monthly_costs` (lines 299-321) is a verbatim duplicate of
`calculate_monthly_costs` in the source. -/
def get_monthly_costs (rows : List Row) : List MonthlyCost :=
  calculate_monthly_costs rows

/-- Filter of `get_month_to_date_costs` (lines 413-417). -/
def mtdRows (rows : List Row) (y : Int) (m dayOfMonth : Nat) : List Row :=
  rows.filter fun r =>
    decide (r.date.year = y) && decide (r.date.month = m) && decide (r.date.day ≤ dayOfMonth)

/-- `get_month_to_date_costs(df, year, month, day_of_month)`: returns
`(total, elec, water)`, or `(0, 0, 0)` when the filter is empty. -/
def get_month_to_date_costs (rows : List Row) (y : Int) (m dayOfMonth : Nat) : ℚ × ℚ × ℚ :=
  let g := mtdRows rows y m dayOfMonth
  if g.length = 0 then (0, 0, 0)
  else
    let e := sumCol g (fun r => r.elec_total)
    let w := sumCol g (fun r => r.water_total)
    (e + w, e, w)

/-- Filter of `get_current_month_costs` (lines 333-337); `date.today()` is
an explicit parameter. -/
def currentMonthRows (today : Day) (rows : List Row) : List Row :=
  rows.filter fun r =>
    decide (r.date.year = today.year) && decide (r.date.month = today.month)

/-- `get_current_month_costs(df)` with `today` explicit. -/
def get_current_month_costs (today : Day) (rows : List Row) : ℚ × ℚ × ℚ :=
  let g := currentMonthRows today rows
  if g.length = 0 then (0, 0, 0)
  else
    let e := sumCol g (fun r => r.elec_total)
    let w := sumCol g (fun r => r.water_total)
    (e + w, e, w)

/-- `get_last_full_month` (lines 323-329). -/
def get_last_full_month (today : Day) : Day :=
  if today.month = 1 then ⟨today.year - 1, 12, 1⟩ else ⟨today.year, today.month - 1, 1⟩

/-- Filter of `get_last_month_costs` (lines 373-376). -/
def lastMonthRows (today : Day) (rows : List Row) : List Row :=
  let lm := get_last_full_month today
  rows.filter fun r =>
    decide (r.date.year = lm.year) && decide (r.date.month = lm.month)

/-- `get_last_month_costs(df)` with a dataframe supplied (the `df is None`
branch regenerates data and is outside this model). -/
def get_last_month_costs (today : Day) (rows : List Row) : ℚ × ℚ × ℚ :=
  let g := lastMonthRows today rows
  if g.length = 0 then (0, 0, 0)
  else
    let e := sumCol g (fun r => r.elec_total)
    let w := sumCol g (fun r => r.water_total)
    (e + w, e, w)

/-- `date(d.year, d.month, 1) - timedelta(days=1)`: the last day of the
month before `d`'s month. -/
def prevMonthLastDay (d : Day) : Day :=
  if d.month = 1 then ⟨d.year - 1, 12, 31⟩
  else ⟨d.year, d.month - 1, daysInMonth d.year (d.month - 1)⟩

/-- Filter of `get_previous_month_costs` (lines 393-400): the rows between
the first and last day of the month before last month. -/
def previousMonthRows (today : Day) (rows : List Row) : List Row :=
  let last_month := prevMonthLastDay today
  let previous_month_end := prevMonthLastDay ⟨last_month.year, last_month.month, 1⟩
  let previous_month_start : Day := ⟨previous_month_end.year, previous_month_end.month, 1⟩
  rows.filter fun r =>
    decide (rataDie previous_month_start ≤ rataDie r.date) &&
    decide (rataDie r.date ≤ rataDie previous_month_end)

/-- `get_previous_month_costs(df)` with `today` explicit and a dataframe
supplied: when the filtered period is empty it returns the hardcoded
fallback `(11500, 7500, 4000)` (lines 402-409). -/
def get_previous_month_costs (today : Day) (rows : List Row) : ℚ × ℚ × ℚ :=
  let g := previousMonthRows today rows
  if 0 < g.length then
    let e := sumCol g (fun r => r.elec_total)
    let w := sumCol g (fun r => r.water_total)
    (e + w, e, w)
  else (11500, 7500, 4000)

/-! ### Column-name model

The dynamic-column behavior of the source (which columns exist on the daily
dataframe, and which columns the aggregator's `agg_dict` retains) is
modelled at the level of column names. -/

/-- Columns of the daily dataframe produced by `generate_data`, in source
insertion order (lines 104, 108, 153-219). -/
def generate_data_columns : List String :=
  ["date", "month",
   "energy_ev", "energy_hot_tub", "energy_refrigerator", "energy_freezer",
   "energy_cooker", "energy_dishwasher", "energy_washing_machine", "energy_dryer",
   "energy_lighting", "energy_heating", "energy_other",
   "elec_usage", "water_usage", "cost_fixed", "cost_equalization",
   "elec_usage_cost", "elec_tax", "elec_total",
   "water_usage_cost", "water_tax", "water_total"]

/-- Structural character-list version of `startswith`: `chListPre p s` is
true when `p` is an initial segment of `s`. -/
def chListPre : List Char → List Char → Bool
  | [], _ => true
  | _ :: _, [] => false
  | c :: cs, d :: ds => c == d && chListPre cs ds

/-- `s.startswith(p)` on strings. -/
def strStartsWith (s p : String) : Bool := chListPre p.data s.data

/-- The keys of the aggregator's `agg_dict` (lines 248-264 and 274-290,
identical for weekly and monthly): a hardcoded list of columns plus every
input column whose name starts with `'energy_'`.  Output columns not in
this dict (besides the groupby keys) are dropped. -/
def agg_dict_keys (dfCols : List String) : List String :=
  ["date", "elec_usage", "water_usage", "cost_fixed", "cost_equalization",
   "elec_usage_cost", "elec_tax", "elec_total",
   "water_usage_cost", "water_tax", "water_total"]
  ++ dfCols.filter (fun c => strStartsWith c "energy_")

/-! ### Concrete inputs used by witnesses and counterexamples -/

/-- A draw stream whose realized values are all 1. -/
def wRng : Nat → ℚ := fun _ => 1

/-- A fresh session: draw cursor at 0, no cached base series. -/
def wGs : GenState := ⟨0, none⟩

/-- All preference flags off. -/
def wPrefs : Prefs := ⟨false, false, false, false⟩

/-- All preference flags on (electric hot tub). -/
def wPrefsAll : Prefs := ⟨true, true, true, true⟩

/-- EV on, everything else off. -/
def wPrefsEV : Prefs := ⟨false, false, true, false⟩

def wDay : Day := ⟨2025, 5, 1⟩

def wDay2 : Day := ⟨2025, 5, 2⟩

/-- Stream for the C3 counterexample: the third draw (position 2, the
first call's `energy_refrigerator` variation) differs from 1. -/
def c3Rng : Nat → ℚ := fun k => if k = 2 then 9/10 else 1

/-- Stream for the C6 counterexample: positions 4 and 5 (the two
`energy_ev` variations of a fresh two-day call with `has_ev`) differ. -/
def c6Rng : Nat → ℚ := fun k => if k = 4 then 4/5 else if k = 5 then 6/5 else 1

/-- The session state after a first `generate_data` call on the one-day May
2025 range with all flags off and the `c3Rng` stream: draw cursor at 11,
base series cached. -/
def c3St : GenState := (generate_data c3Rng wGs wPrefs wDay wDay).2

/-- A daily row with the given date and every numeric column 1. -/
def c8Row (d : Day) : Row :=
  { date := d, month := d.month,
    energy_ev := 1, energy_hot_tub := 1, energy_refrigerator := 1, energy_freezer := 1,
    energy_cooker := 1, energy_dishwasher := 1, energy_washing_machine := 1,
    energy_dryer := 1, energy_lighting := 1, energy_heating := 1, energy_other := 1,
    elec_usage := 1, water_usage := 1, cost_fixed := 1, cost_equalization := 1,
    elec_usage_cost := 1, elec_tax := 1, elec_total := 1,
    water_usage_cost := 1, water_tax := 1, water_total := 1 }

/-! ### Helper lemmas -/

theorem headI_mem {α : Type} [Inhabited α] (l : List α) (h : l ≠ []) : l.headI ∈ l := by
  cases l with
  | nil => exact absurd rfl h
  | cons a t => exact List.mem_cons_self a t

theorem sumCol_add (g : List Row) (f1 f2 : Row → ℚ) :
    sumCol g (fun r => f1 r + f2 r) = sumCol g f1 + sumCol g f2 := by
  induction g with
  | nil => simp [sumCol]
  | cons a t ih =>
      simp only [sumCol, List.map_cons, List.sum_cons] at *
      rw [ih]
      ring

theorem sumCol_add4 (g : List Row) (f f1 f2 f3 f4 : Row → ℚ)
    (h : ∀ r ∈ g, f r = f1 r + f2 r + f3 r + f4 r) :
    sumCol g f = sumCol g f1 + sumCol g f2 + sumCol g f3 + sumCol g f4 := by
  induction g with
  | nil => simp [sumCol]
  | cons a t ih =>
      simp only [sumCol, List.map_cons, List.sum_cons] at *
      rw [h a (by simp), ih (fun r hr => h r (by simp [hr]))]
      ring

theorem sumCol_nonneg (g : List Row) (f : Row → ℚ) (h : ∀ r ∈ g, 0 ≤ f r) :
    0 ≤ sumCol g f := by
  apply List.sum_nonneg
  intro x hx
  obtain ⟨r, hr, rfl⟩ := List.mem_map.1 hx
  exact h r hr

/-- The per-row cost identity of the spec, for both prefixes. -/
def rowIdentity (r : Row) : Prop :=
  r.elec_total = r.cost_fixed + r.cost_equalization + r.elec_usage_cost + r.elec_tax ∧
  r.water_total = r.cost_fixed + r.cost_equalization + r.water_usage_cost + r.water_tax

/-- Non-negativity of the two usage columns of a row. -/
def rowNonneg (r : Row) : Prop := 0 ≤ r.elec_usage ∧ 0 ≤ r.water_usage

theorem gen_row_identity (rng : Nat → ℚ) (gs : GenState) (p : Prefs) (sd ed : Day) (i : Nat) :
    rowIdentity (gen_row rng gs p sd ed i) :=
  ⟨rfl, rfl⟩

theorem generate_rows_identity (rng : Nat → ℚ) (gs : GenState) (p : Prefs) (sd ed : Day) :
    ∀ r ∈ (generate_data rng gs p sd ed).1, rowIdentity r := by
  intro r hr
  simp only [generate_data] at hr
  obtain ⟨i, _, rfl⟩ := List.mem_map.1 hr
  exact gen_row_identity rng gs p sd ed i

theorem gen_row_nonneg (rng : Nat → ℚ) (gs : GenState) (p : Prefs) (sd ed : Day) (i : Nat) :
    rowNonneg (gen_row rng gs p sd ed i) :=
  ⟨le_max_left 0 _, le_max_left 0 _⟩

theorem generate_rows_nonneg (rng : Nat → ℚ) (gs : GenState) (p : Prefs) (sd ed : Day) :
    ∀ r ∈ (generate_data rng gs p sd ed).1, rowNonneg r := by
  intro r hr
  simp only [generate_data] at hr
  obtain ⟨i, _, rfl⟩ := List.mem_map.1 hr
  exact gen_row_nonneg rng gs p sd ed i

theorem sumRow_identity (g : List Row) (d : Day) (m : Nat)
    (h : ∀ r ∈ g, rowIdentity r) : rowIdentity (sumRow g d m) := by
  constructor
  · exact sumCol_add4 g _ _ _ _ _ (fun r hr => (h r hr).1)
  · exact sumCol_add4 g _ _ _ _ _ (fun r hr => (h r hr).2)

theorem sumRow_nonneg (g : List Row) (d : Day) (m : Nat)
    (h : ∀ r ∈ g, rowNonneg r) : rowNonneg (sumRow g d m) :=
  ⟨sumCol_nonneg g _ (fun r hr => (h r hr).1),
   sumCol_nonneg g _ (fun r hr => (h r hr).2)⟩

theorem aggregate_identity (rows : List Row) (h : ∀ r ∈ rows, rowIdentity r) (g : Grain) :
    ∀ r ∈ aggregate_by_time_period rows g, rowIdentity r := by
  intro r hr
  cases g with
  | daily => exact h r hr
  | weekly =>
      simp only [aggregate_by_time_period, aggregateWeekly] at hr
      obtain ⟨k, _, rfl⟩ := List.mem_map.1 hr
      exact sumRow_identity _ _ _ (fun r' hr' => h r' (List.mem_of_mem_filter hr'))
  | monthly =>
      simp only [aggregate_by_time_period, aggregateMonthly] at hr
      obtain ⟨k, _, rfl⟩ := List.mem_map.1 hr
      exact sumRow_identity _ _ _ (fun r' hr' => h r' (List.mem_of_mem_filter hr'))

theorem aggregate_nonneg (rows : List Row) (h : ∀ r ∈ rows, rowNonneg r) (g : Grain) :
    ∀ r ∈ aggregate_by_time_period rows g, rowNonneg r := by
  intro r hr
  cases g with
  | daily => exact h r hr
  | weekly =>
      simp only [aggregate_by_time_period, aggregateWeekly] at hr
      obtain ⟨k, _, rfl⟩ := List.mem_map.1 hr
      exact sumRow_nonneg _ _ _ (fun r' hr' => h r' (List.mem_of_mem_filter hr'))
  | monthly =>
      simp only [aggregate_by_time_period, aggregateMonthly] at hr
      obtain ⟨k, _, rfl⟩ := List.mem_map.1 hr
      exact sumRow_nonneg _ _ _ (fun r' hr' => h r' (List.mem_of_mem_filter hr'))

/-! ### Claims -/

/-- C1: for every row of the generated daily table and for every aggregation
grain (daily, weekly, monthly), and for each of the two cost column groups,
`{elec,water}_total = cost_fixed + cost_equalization + {elec,water}_usage_cost
+ {elec,water}_tax`.  Proved as an exact rational identity, which implies the
claimed 1e-6 floating tolerance. -/
theorem C1_cost_identity (rng : Nat → ℚ) (gs : GenState) (p : Prefs) (sd ed : Day)
    (g : Grain) (r : Row)
    (hr : r ∈ aggregate_by_time_period (generate_data rng gs p sd ed).1 g) :
    r.elec_total = r.cost_fixed + r.cost_equalization + r.elec_usage_cost + r.elec_tax ∧
    r.water_total = r.cost_fixed + r.cost_equalization + r.water_usage_cost + r.water_tax :=
  aggregate_identity _ (generate_rows_identity rng gs p sd ed) g r hr

/-- Witness for C1: the identity instantiated on the weekly aggregate of a
concrete one-day generated table. -/
theorem C1_cost_identity_witness :
    let r := (aggregate_by_time_period (generate_data wRng wGs wPrefs wDay wDay).1
      Grain.weekly).headI
    r.elec_total = r.cost_fixed + r.cost_equalization + r.elec_usage_cost + r.elec_tax ∧
    r.water_total = r.cost_fixed + r.cost_equalization + r.water_usage_cost + r.water_tax :=
  C1_cost_identity wRng wGs wPrefs wDay wDay Grain.weekly
    (aggregate_by_time_period (generate_data wRng wGs wPrefs wDay wDay).1 Grain.weekly).headI
    (headI_mem _ (by decide))

/-- C9: for every date range and every combination of preference flags, the
generated `elec_usage` and `water_usage` are non-negative on every row, at
every aggregation grain (daily rows are clipped at 0; aggregation sums
non-negative values). -/
theorem C9_usage_nonneg (rng : Nat → ℚ) (gs : GenState) (p : Prefs) (sd ed : Day)
    (g : Grain) (r : Row)
    (hr : r ∈ aggregate_by_time_period (generate_data rng gs p sd ed).1 g) :
    0 ≤ r.elec_usage ∧ 0 ≤ r.water_usage :=
  aggregate_nonneg _ (generate_rows_nonneg rng gs p sd ed) g r hr

/-- Witness for C9: non-negativity instantiated on the monthly aggregate of
a concrete one-day table generated with every preference on (heat-pump
reductions active). -/
theorem C9_usage_nonneg_witness :
    let r := (aggregate_by_time_period (generate_data wRng wGs wPrefsAll wDay wDay).1
      Grain.monthly).headI
    0 ≤ r.elec_usage ∧ 0 ≤ r.water_usage :=
  C9_usage_nonneg wRng wGs wPrefsAll wDay wDay Grain.monthly
    (aggregate_by_time_period (generate_data wRng wGs wPrefsAll wDay wDay).1 Grain.monthly).headI
    (headI_mem _ (by decide))

/-- C10: in every row of the monthly cost summary, `total` equals
`elec_total + water_total`, and since each of those already contains the
month's full `cost_fixed` and `cost_equalization`, the summary total counts
the fixed and equalization charges twice: it equals
`2 * Σ(cost_fixed + cost_equalization) + Σ(usage costs + taxes)` over the
month's daily rows. -/
theorem C10_monthly_summary_double_counts (rng : Nat → ℚ) (gs : GenState) (p : Prefs)
    (sd ed : Day) (m : MonthlyCost)
    (hm : m ∈ calculate_monthly_costs (generate_data rng gs p sd ed).1) :
    m.total = m.elec_total + m.water_total ∧
    m.total =
      2 * sumCol (groupRows monthKey (generate_data rng gs p sd ed).1 (m.year, m.month))
          (fun r => r.cost_fixed + r.cost_equalization) +
      sumCol (groupRows monthKey (generate_data rng gs p sd ed).1 (m.year, m.month))
          (fun r => r.elec_usage_cost + r.elec_tax + r.water_usage_cost + r.water_tax) := by
  simp only [calculate_monthly_costs] at hm
  obtain ⟨k, -, rfl⟩ := List.mem_map.1 hm
  refine ⟨rfl, ?_⟩
  set rows := (generate_data rng gs p sd ed).1 with hrows
  have hsub : ∀ r ∈ groupRows monthKey rows k, rowIdentity r := by
    intro r hr
    exact generate_rows_identity rng gs p sd ed r (List.mem_of_mem_filter hr)
  have he := sumCol_add4 (groupRows monthKey rows k) _ _ _ _ _ (fun r hr => (hsub r hr).1)
  have hw := sumCol_add4 (groupRows monthKey rows k) _ _ _ _ _ (fun r hr => (hsub r hr).2)
  show sumCol (groupRows monthKey rows k) (fun r => r.elec_total) +
      sumCol (groupRows monthKey rows k) (fun r => r.water_total) = _
  rw [show ((k.1 : Int), (k.2 : Nat)) = k from rfl]
  rw [he, hw,
    sumCol_add (groupRows monthKey rows k) (fun r => r.cost_fixed)
      (fun r => r.cost_equalization),
    sumCol_add4 (groupRows monthKey rows k)
      (fun r => r.elec_usage_cost + r.elec_tax + r.water_usage_cost + r.water_tax)
      (fun r => r.elec_usage_cost) (fun r => r.elec_tax)
      (fun r => r.water_usage_cost) (fun r => r.water_tax) (fun r _ => rfl)]
  ring

/-- Witness for C10: the double-counting identity on the monthly summary of
a concrete one-day generated table. -/
theorem C10_monthly_summary_double_counts_witness :
    let m := (calculate_monthly_costs (generate_data wRng wGs wPrefs wDay wDay).1).headI
    m.total = m.elec_total + m.water_total ∧
    m.total =
      2 * sumCol (groupRows monthKey (generate_data wRng wGs wPrefs wDay wDay).1 (m.year, m.month))
          (fun r => r.cost_fixed + r.cost_equalization) +
      sumCol (groupRows monthKey (generate_data wRng wGs wPrefs wDay wDay).1 (m.year, m.month))
          (fun r => r.elec_usage_cost + r.elec_tax + r.water_usage_cost + r.water_tax) :=
  C10_monthly_summary_double_counts wRng wGs wPrefs wDay wDay
    (calculate_monthly_costs (generate_data wRng wGs wPrefs wDay wDay).1).headI
    (headI_mem _ (by decide))

/-- Evaluation of the pre-normalization category sum on the concrete witness
input (one day, May 2025, all flags off, all draws 1): the nine ungated
category totals sum to 397. -/
theorem wRawSum_eval : gen_rawSum wRng wGs wPrefs wDay wDay = 397 := by
  have hn : gen_n wDay wDay = 1 := rfl
  have hm : gen_month wDay 0 = 5 := rfl
  rw [gen_rawSum, hn, Finset.sum_range_one]
  simp only [gen_rawCatDay, gen_raw_energy_ev, gen_raw_energy_hot_tub,
    gen_raw_energy_refrigerator, gen_raw_energy_freezer, gen_raw_energy_cooker,
    gen_raw_energy_dishwasher, gen_raw_energy_washing_machine, gen_raw_energy_dryer,
    gen_raw_energy_lighting, gen_raw_energy_heating, gen_raw_energy_other,
    gen_raw_cat, wPrefs, wRng, hn, hm, summerFactor, winterElecFactor, fallSpringElecFactor]
  norm_num

/-- On the same input, the normalization factor is `876/397`: the target of
the rescale is the grand total over ALL configured categories, including the
inactive EV and electric-hot-tub ones. -/
theorem wScale_eval : gen_scale wRng wGs wPrefs wDay wDay = 876/397 := by
  rw [gen_scale, if_pos (by rw [wRawSum_eval]; norm_num), wRawSum_eval]
  norm_num [total_energy, ENERGY_CATEGORIES]

/-- Counterexample for C2: on a one-day range with all preferences off and
all draws equal to 1, the generated `energy_refrigerator` sums to
`40·876/397 ≈ 88.3`, not its configured total 40 (off by far more than the
claimed 1e-6 tolerance), and the remaining active categories sum to 876
(the full grand total including the inactive EV and hot-tub categories),
not their combined configured total `876 − 266 − 213 = 397`. -/
theorem C2_counterexample :
    ¬ |(∑ i ∈ Finset.range (gen_n wDay wDay),
        gen_energy_refrigerator wRng wGs wPrefs wDay wDay i) - 40| ≤ 1/1000000 ∧
    ¬ |(∑ i ∈ Finset.range (gen_n wDay wDay),
        gen_catSum wRng wGs wPrefs wDay wDay i) - (876 - 266 - 213)| ≤ 1/1000000 := by
  have hn : gen_n wDay wDay = 1 := rfl
  have hm : gen_month wDay 0 = 5 := rfl
  have hev : wPrefs.has_ev = false := rfl
  have htub : wPrefs.has_hot_tub = false := rfl
  constructor
  · have h1 : gen_energy_refrigerator wRng wGs wPrefs wDay wDay 0 = 40 * (876/397) := by
      rw [gen_energy_refrigerator, wScale_eval]
      simp only [gen_raw_energy_refrigerator, gen_raw_cat, wRng, hn, hm, summerFactor]
      norm_num
    rw [hn, Finset.sum_range_one, h1,
      show (40:ℚ) * (876/397) - 40 = 19160/397 by norm_num,
      abs_of_nonneg (by norm_num : (0:ℚ) ≤ 19160/397)]
    norm_num
  · have h2 : gen_catSum wRng wGs wPrefs wDay wDay 0 = 876 := by
      rw [gen_catSum, gen_energy_ev, gen_energy_hot_tub, gen_energy_refrigerator,
        gen_energy_freezer, gen_energy_cooker, gen_energy_dishwasher,
        gen_energy_washing_machine, gen_energy_dryer, gen_energy_lighting,
        gen_energy_heating, gen_energy_other, wScale_eval]
      simp only [gen_raw_energy_ev, gen_raw_energy_hot_tub,
        gen_raw_energy_refrigerator, gen_raw_energy_freezer, gen_raw_energy_cooker,
        gen_raw_energy_dishwasher, gen_raw_energy_washing_machine, gen_raw_energy_dryer,
        gen_raw_energy_lighting, gen_raw_energy_heating, gen_raw_energy_other,
        gen_raw_cat, wRng, hn, hm, hev, htub, summerFactor,
        winterElecFactor, fallSpringElecFactor, Bool.false_and, Bool.false_eq_true,
        if_false]
      norm_num
    rw [hn, Finset.sum_range_one, h2,
      show (876:ℚ) - (876 - 266 - 213) = 479 by norm_num,
      abs_of_nonneg (by norm_num : (0:ℚ) ≤ 479)]
    norm_num

/-- C2 (amended): whenever the pre-normalization category sum is positive,
the normalization makes the grand total over all energy category columns
equal `total_energy` — the sum of ALL configured category totals (876),
including categories zeroed by inactive preferences.  Individual category
sums are merely rescaled by the common factor and need not equal their own
configured totals, and toggling a preference off leaves the remaining
categories summing to the full 876, not to their combined configured
totals. -/
theorem C2_amended (rng : Nat → ℚ) (gs : GenState) (p : Prefs) (sd ed : Day)
    (h : 0 < gen_rawSum rng gs p sd ed) :
    ∑ i ∈ Finset.range (gen_n sd ed), gen_catSum rng gs p sd ed i = total_energy := by
  have hcs : ∀ i, gen_catSum rng gs p sd ed i =
      gen_rawCatDay rng gs p sd ed i * gen_scale rng gs p sd ed := by
    intro i
    simp only [gen_catSum, gen_rawCatDay, gen_energy_ev, gen_energy_hot_tub,
      gen_energy_refrigerator, gen_energy_freezer, gen_energy_cooker, gen_energy_dishwasher,
      gen_energy_washing_machine, gen_energy_dryer, gen_energy_lighting, gen_energy_heating,
      gen_energy_other]
    ring
  calc ∑ i ∈ Finset.range (gen_n sd ed), gen_catSum rng gs p sd ed i
      = ∑ i ∈ Finset.range (gen_n sd ed),
          gen_rawCatDay rng gs p sd ed i * gen_scale rng gs p sd ed :=
        Finset.sum_congr rfl (fun i _ => hcs i)
    _ = gen_rawSum rng gs p sd ed * gen_scale rng gs p sd ed := by
        rw [← Finset.sum_mul, gen_rawSum]
    _ = total_energy := by
        rw [gen_scale, if_pos h]
        field_simp

/-- Witness for C2 (amended): on the concrete witness input the
pre-normalization sum is positive and the normalized grand total is 876. -/
theorem C2_amended_witness :
    0 < gen_rawSum wRng wGs wPrefs wDay wDay ∧
    ∑ i ∈ Finset.range (gen_n wDay wDay), gen_catSum wRng wGs wPrefs wDay wDay i =
      total_energy :=
  ⟨by rw [wRawSum_eval]; norm_num,
   C2_amended wRng wGs wPrefs wDay wDay (by rw [wRawSum_eval]; norm_num)⟩

/-- C3 (amended): for a fixed date range, a second `generate_data` call in
the same session — with any preference flags — reuses the identical cached
base electricity and water series (the base series does not depend on the
flags at all).  The per-category uniform variations, however, are redrawn
on every call (see the counterexample). -/
theorem C3_amended (rng : Nat → ℚ) (gs : GenState) (p1 : Prefs) (sd ed : Day) :
    gen_base_elec rng (generate_data rng gs p1 sd ed).2 sd ed = gen_base_elec rng gs sd ed ∧
    gen_base_water rng (generate_data rng gs p1 sd ed).2 sd ed = gen_base_water rng gs sd ed := by
  rcases hgc : gs.cache with _ | ⟨k, be, bw⟩
  · constructor <;>
      simp only [generate_data, gen_base_elec, gen_base_water, gen_cacheOut, gen_cacheHit,
        hgc, if_true]
  · by_cases hk : k = (sd, ed)
    · subst hk
      constructor <;>
        simp only [generate_data, gen_base_elec, gen_base_water, gen_cacheOut, gen_cacheHit,
          hgc, if_pos rfl, if_true]
    · constructor <;>
        simp only [generate_data, gen_base_elec, gen_base_water, gen_cacheOut, gen_cacheHit,
          hgc, if_neg hk, if_true]

/-- Pre-normalization category sum of the first C3 call (refrigerator draw
is 9/10, everything else 1): `397 − 40 + 36 = 393`. -/
theorem c3RawSum1_eval : gen_rawSum c3Rng wGs wPrefs wDay wDay = 393 := by
  have hn : gen_n wDay wDay = 1 := rfl
  have hm : gen_month wDay 0 = 5 := rfl
  have hpc : gen_posCats wGs wPrefs wDay wDay = 2 := rfl
  have hev : wPrefs.has_ev = false := rfl
  have htub : wPrefs.has_hot_tub = false := rfl
  rw [gen_rawSum, hn, Finset.sum_range_one]
  simp [gen_rawCatDay, gen_raw_energy_ev, gen_raw_energy_hot_tub,
    gen_raw_energy_refrigerator, gen_raw_energy_freezer, gen_raw_energy_cooker,
    gen_raw_energy_dishwasher, gen_raw_energy_washing_machine, gen_raw_energy_dryer,
    gen_raw_energy_lighting, gen_raw_energy_heating, gen_raw_energy_other,
    gen_raw_cat, c3Rng, hn, hm, hpc, hev, htub, summerFactor, winterElecFactor,
    fallSpringElecFactor]
  norm_num

/-- Pre-normalization category sum of the second C3 call (EV on, cursor at
11, all consumed draws 1): `266 + 397 = 663`. -/
theorem c3RawSum2_eval : gen_rawSum c3Rng c3St wPrefsEV wDay wDay = 663 := by
  have hn : gen_n wDay wDay = 1 := rfl
  have hm : gen_month wDay 0 = 5 := rfl
  have hpb : gen_posBase c3St wDay wDay = 11 := rfl
  have hpc : gen_posCats c3St wPrefsEV wDay wDay = 12 := rfl
  have hev : wPrefsEV.has_ev = true := rfl
  have htub : wPrefsEV.has_hot_tub = false := rfl
  rw [gen_rawSum, hn, Finset.sum_range_one]
  simp [gen_rawCatDay, gen_raw_energy_ev, gen_raw_energy_hot_tub,
    gen_raw_energy_refrigerator, gen_raw_energy_freezer, gen_raw_energy_cooker,
    gen_raw_energy_dishwasher, gen_raw_energy_washing_machine, gen_raw_energy_dryer,
    gen_raw_energy_lighting, gen_raw_energy_heating, gen_raw_energy_other,
    gen_raw_cat, c3Rng, hn, hm, hpb, hpc, hev, htub, summerFactor, winterElecFactor,
    fallSpringElecFactor]
  norm_num

/-- Counterexample for C3: toggling `has_ev` on for the second call of the
same session reuses the identical cached base series (first conjunct), yet
`energy_refrigerator` — random noise unrelated to the EV preference —
changes anyway (second conjunct): the category variations are redrawn at
new cursor positions on every call, and the normalization factor changes
with the active category set. -/
theorem C3_counterexample :
    gen_base_elec c3Rng c3St wDay wDay 0 = gen_base_elec c3Rng wGs wDay wDay 0 ∧
    gen_energy_refrigerator c3Rng c3St wPrefsEV wDay wDay 0 ≠
      gen_energy_refrigerator c3Rng wGs wPrefs wDay wDay 0 := by
  have hn : gen_n wDay wDay = 1 := rfl
  have hm : gen_month wDay 0 = 5 := rfl
  constructor
  · rfl
  · have hs1 : gen_scale c3Rng wGs wPrefs wDay wDay = 876/393 := by
      rw [gen_scale, if_pos (by rw [c3RawSum1_eval]; norm_num), c3RawSum1_eval]
      norm_num [total_energy, ENERGY_CATEGORIES]
    have hs2 : gen_scale c3Rng c3St wPrefsEV wDay wDay = 876/663 := by
      rw [gen_scale, if_pos (by rw [c3RawSum2_eval]; norm_num), c3RawSum2_eval]
      norm_num [total_energy, ENERGY_CATEGORIES]
    have hpc1 : gen_posCats wGs wPrefs wDay wDay = 2 := rfl
    have hpc2 : gen_posCats c3St wPrefsEV wDay wDay = 12 := rfl
    have h1 : gen_energy_refrigerator c3Rng wGs wPrefs wDay wDay 0 =
        40 * (9/10) * (876/393) := by
      rw [gen_energy_refrigerator, hs1]
      simp [gen_raw_energy_refrigerator, gen_raw_cat, c3Rng, hn, hm, hpc1, summerFactor]
    have h2 : gen_energy_refrigerator c3Rng c3St wPrefsEV wDay wDay 0 =
        40 * (876/663) := by
      rw [gen_energy_refrigerator, hs2]
      simp [gen_raw_energy_refrigerator, gen_raw_cat, c3Rng, hn, hm, hpc2, summerFactor]
    rw [h1, h2]
    norm_num

/-- Counterexample for C4: a new category column named `water_hot_tub`
added upstream to the daily table is NOT included in the aggregation dict —
only columns starting with `energy_` are picked up dynamically; everything
else comes from the hardcoded list and any other new column is dropped. -/
theorem C4_counterexample :
    "water_hot_tub" ∈ generate_data_columns ++ ["water_hot_tub"] ∧
    "water_hot_tub" ∉ agg_dict_keys (generate_data_columns ++ ["water_hot_tub"]) := by
  decide

/-- C4 (amended): weekly/monthly aggregation dynamically enumerates and
sums exactly the columns whose name starts with `energy_`; all other summed
columns come from a hardcoded list, and any other column added upstream is
dropped.  Any new `energy_`-named category column is automatically
included. -/
theorem C4_amended (dfCols : List String) (c : String) (hc : c ∈ dfCols)
    (hpre : strStartsWith c "energy_" = true) : c ∈ agg_dict_keys dfCols := by
  unfold agg_dict_keys
  exact List.mem_append.2 (Or.inr (List.mem_filter.2 ⟨hc, hpre⟩))

/-- Witness for C4 (amended): `energy_ev` is picked up from the generated
daily columns. -/
theorem C4_amended_witness : "energy_ev" ∈ agg_dict_keys generate_data_columns :=
  C4_amended generate_data_columns "energy_ev" (by decide) (by decide)

/-- Counterexample for C5: on a table with no rows in the requested period,
the previous-month query returns the hardcoded fallback
`(11500, 7500, 4000)`, not `(0, 0, 0)` as claimed. -/
theorem C5_counterexample :
    get_previous_month_costs ⟨2025, 10, 12⟩ [] ≠ (0, 0, 0) := by
  simp [get_previous_month_costs, previousMonthRows]

/-- C5 (amended): with no rows in the requested period, the month-to-date,
current-month and last-full-month queries return `(0, 0, 0)` and the
previous-month query returns the fallback `(11500, 7500, 4000)`; none of
them raises. -/
theorem C5_amended (today : Day) (rows : List Row) (y : Int) (m dom : Nat)
    (h1 : mtdRows rows y m dom = []) (h2 : currentMonthRows today rows = [])
    (h3 : lastMonthRows today rows = []) (h4 : previousMonthRows today rows = []) :
    get_month_to_date_costs rows y m dom = (0, 0, 0) ∧
    get_current_month_costs today rows = (0, 0, 0) ∧
    get_last_month_costs today rows = (0, 0, 0) ∧
    get_previous_month_costs today rows = (11500, 7500, 4000) := by
  refine ⟨?_, ?_, ?_, ?_⟩
  · simp [get_month_to_date_costs, h1]
  · simp [get_current_month_costs, h2]
  · simp [get_last_month_costs, h3]
  · simp [get_previous_month_costs, h4]

/-- Witness for C5 (amended): the four queries on an empty table. -/
theorem C5_amended_witness :
    get_month_to_date_costs [] 2025 9 30 = (0, 0, 0) ∧
    get_current_month_costs ⟨2025, 10, 12⟩ [] = (0, 0, 0) ∧
    get_last_month_costs ⟨2025, 10, 12⟩ [] = (0, 0, 0) ∧
    get_previous_month_costs ⟨2025, 10, 12⟩ [] = (11500, 7500, 4000) :=
  C5_amended ⟨2025, 10, 12⟩ [] 2025 9 30 rfl rfl rfl rfl

/-- Counterexample for C7: `water_hot_tub` is a configured water category,
yet no water category column exists on the generated daily table — none of
the seven configured water categories does. -/
theorem C7_counterexample :
    ("water_hot_tub", (180:ℚ)) ∈ WATER_CATEGORIES ∧
    "water_hot_tub" ∉ generate_data_columns ∧
    "water_shower" ∉ generate_data_columns ∧
    "water_radiators" ∉ generate_data_columns ∧
    "water_faucets" ∉ generate_data_columns ∧
    "water_dishwasher" ∉ generate_data_columns ∧
    "water_washing_machine" ∉ generate_data_columns ∧
    "water_floor_heating" ∉ generate_data_columns := by
  refine ⟨?_, ?_, ?_, ?_, ?_, ?_, ?_, ?_⟩ <;> decide

/-- C7 (amended): the `WATER_CATEGORIES` table is configured but unused —
the generator produces no per-day column for any configured water category
(only total `water_usage`), so there are no per-category water values whose
sums could be preserved. -/
theorem C7_amended (c : String) (v : ℚ) (h : (c, v) ∈ WATER_CATEGORIES) :
    c ∉ generate_data_columns := by
  fin_cases h <;> decide

/-- Witness for C7 (amended): instantiated at the hot-tub water category. -/
theorem C7_amended_witness : "water_hot_tub" ∉ generate_data_columns :=
  C7_amended "water_hot_tub" 180 (by decide)

/-- The category columns do not depend on the heat-pump flag. -/
theorem gen_catSum_hp (rng : Nat → ℚ) (gs : GenState) (p : Prefs) (b : Bool) (sd ed : Day)
    (i : Nat) : gen_catSum rng gs { p with has_heat_pump := b } sd ed i =
      gen_catSum rng gs p sd ed i := rfl

/-- The geothermal-tub adjustment with the tub set to geothermal. -/
theorem gen_geo_on (p : Prefs) (i : Nat) :
    gen_geothermal_hot_tub_usage { p with has_hot_tub := true, hot_tub_electric := false } i =
      GEOTHERMAL_HOT_TUB_DAILY_M3 := rfl

theorem gen_geo_off (p : Prefs) (i : Nat) :
    gen_geothermal_hot_tub_usage { p with has_hot_tub := false } i = 0 := rfl

theorem gen_geo_hp (p : Prefs) (b : Bool) (i : Nat) :
    gen_geothermal_hot_tub_usage { p with has_heat_pump := b } i =
      gen_geothermal_hot_tub_usage p i := rfl

theorem gen_elec_reduction_on (p : Prefs) (i : Nat) :
    gen_elec_reduction { p with has_heat_pump := true } i = HEAT_PUMP_ELEC_REDUCTION_KWH := rfl

theorem gen_elec_reduction_off (p : Prefs) (i : Nat) :
    gen_elec_reduction { p with has_heat_pump := false } i = 0 := rfl

theorem gen_water_reduction_on (p : Prefs) (i : Nat) :
    gen_water_reduction { p with has_heat_pump := true } i = HEAT_PUMP_WATER_REDUCTION_M3 := rfl

theorem gen_water_reduction_off (p : Prefs) (i : Nat) :
    gen_water_reduction { p with has_heat_pump := false } i = 0 := rfl

theorem gen_water_reduction_tub (p : Prefs) (x y : Bool) (i : Nat) :
    gen_water_reduction { p with has_hot_tub := x, hot_tub_electric := y } i =
      gen_water_reduction p i := rfl

theorem gen_water_reduction_tub1 (p : Prefs) (x : Bool) (i : Nat) :
    gen_water_reduction { p with has_hot_tub := x } i = gen_water_reduction p i := rfl

/-- C6 (amended): with the corresponding preference active, the
geothermal-hot-tub adjustment adds exactly `GEOTHERMAL_HOT_TUB_DAILY_M3`
(0.2 m3) to every day's water usage, and the heat-pump adjustments subtract
exactly `HEAT_PUMP_ELEC_REDUCTION_KWH` (3 kWh) and
`HEAT_PUMP_WATER_REDUCTION_M3` (0.05 m3) from every day's electricity and
water usage — flat, non-randomized, for every day index and any season
(whenever the zero-clamp does not bite).  The EV and electric-hot-tub
"fixed daily adjustments", by contrast, are computed but never applied:
those preferences contribute only through randomized category columns (see
the counterexample). -/
theorem C6_amended (rng : Nat → ℚ) (gs : GenState) (sd ed : Day) (p : Prefs) (i : Nat) :
    (0 ≤ gen_base_water rng gs sd ed i - gen_water_reduction p i →
      gen_water_usage rng gs { p with has_hot_tub := true, hot_tub_electric := false } sd ed i -
        gen_water_usage rng gs { p with has_hot_tub := false } sd ed i =
        GEOTHERMAL_HOT_TUB_DAILY_M3) ∧
    (0 ≤ gen_base_elec rng gs sd ed i - HEAT_PUMP_ELEC_REDUCTION_KWH +
        gen_catSum rng gs p sd ed i →
      gen_elec_usage rng gs { p with has_heat_pump := false } sd ed i -
        gen_elec_usage rng gs { p with has_heat_pump := true } sd ed i =
        HEAT_PUMP_ELEC_REDUCTION_KWH) ∧
    (0 ≤ gen_base_water rng gs sd ed i + gen_geothermal_hot_tub_usage p i -
        HEAT_PUMP_WATER_REDUCTION_M3 →
      gen_water_usage rng gs { p with has_heat_pump := false } sd ed i -
        gen_water_usage rng gs { p with has_heat_pump := true } sd ed i =
        HEAT_PUMP_WATER_REDUCTION_M3) := by
  have hG : (0:ℚ) ≤ GEOTHERMAL_HOT_TUB_DAILY_M3 := by norm_num [GEOTHERMAL_HOT_TUB_DAILY_M3]
  have hE : (0:ℚ) ≤ HEAT_PUMP_ELEC_REDUCTION_KWH := by norm_num [HEAT_PUMP_ELEC_REDUCTION_KWH]
  have hW : (0:ℚ) ≤ HEAT_PUMP_WATER_REDUCTION_M3 := by norm_num [HEAT_PUMP_WATER_REDUCTION_M3]
  refine ⟨fun ha => ?_, fun hb => ?_, fun hc => ?_⟩
  · simp only [gen_water_usage, clip0, gen_geo_on, gen_geo_off,
      gen_water_reduction_tub, gen_water_reduction_tub1, add_zero]
    rw [max_eq_right (by linarith), max_eq_right (by linarith)]
    ring
  · simp only [gen_elec_usage, clip0, gen_catSum_hp, gen_elec_reduction_on,
      gen_elec_reduction_off, sub_zero]
    rw [max_eq_right (by linarith), max_eq_right (by linarith)]
    ring
  · simp only [gen_water_usage, clip0, gen_geo_hp, gen_water_reduction_on,
      gen_water_reduction_off, sub_zero]
    rw [max_eq_right (by linarith), max_eq_right (by linarith)]
    ring

/-- Base electricity of the witness input is 1 on day 0 (draw 1, May). -/
theorem wBaseElec_eval : gen_base_elec wRng wGs wDay wDay 0 = 1 := by
  have hm : gen_month wDay 0 = 5 := rfl
  simp [gen_base_elec, gen_cacheHit, wGs, wRng, hm, winterElecFactor, fallSpringElecFactor]

/-- Base water of the witness input is 1 on day 0 (draw 1, May). -/
theorem wBaseWater_eval : gen_base_water wRng wGs wDay wDay 0 = 1 := by
  have hm : gen_month wDay 0 = 5 := rfl
  simp [gen_base_water, gen_cacheHit, wGs, wRng, hm, winterWaterFactor, fallSpringWaterFactor]

/-- Normalized category sum of the witness input on its single day: 876. -/
theorem wCatSum_eval : gen_catSum wRng wGs wPrefs wDay wDay 0 = 876 := by
  have hn : gen_n wDay wDay = 1 := rfl
  have hm : gen_month wDay 0 = 5 := rfl
  have hev : wPrefs.has_ev = false := rfl
  have htub : wPrefs.has_hot_tub = false := rfl
  rw [gen_catSum, gen_energy_ev, gen_energy_hot_tub, gen_energy_refrigerator,
    gen_energy_freezer, gen_energy_cooker, gen_energy_dishwasher,
    gen_energy_washing_machine, gen_energy_dryer, gen_energy_lighting,
    gen_energy_heating, gen_energy_other, wScale_eval]
  simp only [gen_raw_energy_ev, gen_raw_energy_hot_tub,
    gen_raw_energy_refrigerator, gen_raw_energy_freezer, gen_raw_energy_cooker,
    gen_raw_energy_dishwasher, gen_raw_energy_washing_machine, gen_raw_energy_dryer,
    gen_raw_energy_lighting, gen_raw_energy_heating, gen_raw_energy_other,
    gen_raw_cat, wRng, hn, hm, hev, htub, summerFactor,
    winterElecFactor, fallSpringElecFactor, Bool.false_and, Bool.false_eq_true,
    if_false]
  norm_num

/-- Witness for C6 (amended): the three flat adjustments evaluated on the
concrete witness input. -/
theorem C6_amended_witness :
    (gen_water_usage wRng wGs { wPrefs with has_hot_tub := true, hot_tub_electric := false }
        wDay wDay 0 -
      gen_water_usage wRng wGs { wPrefs with has_hot_tub := false } wDay wDay 0 =
      GEOTHERMAL_HOT_TUB_DAILY_M3) ∧
    (gen_elec_usage wRng wGs { wPrefs with has_heat_pump := false } wDay wDay 0 -
      gen_elec_usage wRng wGs { wPrefs with has_heat_pump := true } wDay wDay 0 =
      HEAT_PUMP_ELEC_REDUCTION_KWH) ∧
    (gen_water_usage wRng wGs { wPrefs with has_heat_pump := false } wDay wDay 0 -
      gen_water_usage wRng wGs { wPrefs with has_heat_pump := true } wDay wDay 0 =
      HEAT_PUMP_WATER_REDUCTION_M3) :=
  ⟨(C6_amended wRng wGs wDay wDay wPrefs 0).1
    (by rw [wBaseWater_eval]
        norm_num [gen_water_reduction, show wPrefs.has_heat_pump = false from rfl]),
   (C6_amended wRng wGs wDay wDay wPrefs 0).2.1
    (by rw [wBaseElec_eval, wCatSum_eval]
        norm_num [HEAT_PUMP_ELEC_REDUCTION_KWH]),
   (C6_amended wRng wGs wDay wDay wPrefs 0).2.2
    (by rw [wBaseWater_eval]
        norm_num [gen_geothermal_hot_tub_usage, HEAT_PUMP_WATER_REDUCTION_M3,
          show wPrefs.has_hot_tub = false from rfl])⟩

/-- Pre-normalization category sum of the C6 run (two days, EV on, EV draws
4/5 and 6/5, all other draws 1): `266 + 397 = 663`. -/
theorem c6RawSum_eval : gen_rawSum c6Rng wGs wPrefsEV wDay wDay2 = 663 := by
  have hn : gen_n wDay wDay2 = 2 := rfl
  have hm0 : gen_month wDay 0 = 5 := rfl
  have hm1 : gen_month wDay 1 = 5 := rfl
  have hpb : gen_posBase wGs wDay wDay2 = 4 := rfl
  have hpc : gen_posCats wGs wPrefsEV wDay wDay2 = 6 := rfl
  have hev : wPrefsEV.has_ev = true := rfl
  have htub : wPrefsEV.has_hot_tub = false := rfl
  rw [gen_rawSum, hn, Finset.sum_range_succ, Finset.sum_range_one]
  simp [gen_rawCatDay, gen_raw_energy_ev, gen_raw_energy_hot_tub,
    gen_raw_energy_refrigerator, gen_raw_energy_freezer, gen_raw_energy_cooker,
    gen_raw_energy_dishwasher, gen_raw_energy_washing_machine, gen_raw_energy_dryer,
    gen_raw_energy_lighting, gen_raw_energy_heating, gen_raw_energy_other,
    gen_raw_cat, c6Rng, hn, hm0, hm1, hpb, hpc, hev, htub, summerFactor,
    winterElecFactor, fallSpringElecFactor]
  norm_num

/-- Normalization factor of the C6 run. -/
theorem c6Scale_eval : gen_scale c6Rng wGs wPrefsEV wDay wDay2 = 876/663 := by
  rw [gen_scale, if_pos (by rw [c6RawSum_eval]; norm_num), c6RawSum_eval]
  norm_num [total_energy, ENERGY_CATEGORIES]

/-- Counterexample for C6: in a two-day May range with `has_ev` active, the
base series and the month are identical on both days and the refrigerator
category is identical on both days, yet `energy_ev` — the only channel
through which the EV preference reaches `elec_usage`, since the `ev_usage`
array is never applied — differs between the days, and so does
`elec_usage`: the vehicle-charging contribution is randomized per day, not
the flat 10 kWh/day constant. -/
theorem C6_counterexample :
    gen_base_elec c6Rng wGs wDay wDay2 0 = gen_base_elec c6Rng wGs wDay wDay2 1 ∧
    gen_month wDay 0 = gen_month wDay 1 ∧
    gen_energy_refrigerator c6Rng wGs wPrefsEV wDay wDay2 0 =
      gen_energy_refrigerator c6Rng wGs wPrefsEV wDay wDay2 1 ∧
    gen_energy_ev c6Rng wGs wPrefsEV wDay wDay2 0 ≠
      gen_energy_ev c6Rng wGs wPrefsEV wDay wDay2 1 ∧
    gen_elec_usage c6Rng wGs wPrefsEV wDay wDay2 0 ≠
      gen_elec_usage c6Rng wGs wPrefsEV wDay wDay2 1 := by
  have hn : gen_n wDay wDay2 = 2 := rfl
  have hm0 : gen_month wDay 0 = 5 := rfl
  have hm1 : gen_month wDay 1 = 5 := rfl
  have hpb : gen_posBase wGs wDay wDay2 = 4 := rfl
  have hpc : gen_posCats wGs wPrefsEV wDay wDay2 = 6 := rfl
  have hev : wPrefsEV.has_ev = true := rfl
  have hb0 : gen_base_elec c6Rng wGs wDay wDay2 0 = 1 := by
    simp [gen_base_elec, gen_cacheHit, wGs, c6Rng, hm0, winterElecFactor, fallSpringElecFactor]
  have hb1 : gen_base_elec c6Rng wGs wDay wDay2 1 = 1 := by
    simp [gen_base_elec, gen_cacheHit, wGs, c6Rng, hm1, winterElecFactor, fallSpringElecFactor]
  have hev0 : gen_energy_ev c6Rng wGs wPrefsEV wDay wDay2 0 = 532/5 * (876/663) := by
    rw [gen_energy_ev, c6Scale_eval]
    simp [gen_raw_energy_ev, c6Rng, hn, hpb, hev]
    norm_num
  have hev1 : gen_energy_ev c6Rng wGs wPrefsEV wDay wDay2 1 = 798/5 * (876/663) := by
    rw [gen_energy_ev, c6Scale_eval]
    simp [gen_raw_energy_ev, c6Rng, hn, hpb, hev]
    norm_num
  have hr0 : gen_energy_refrigerator c6Rng wGs wPrefsEV wDay wDay2 0 = 20 * (876/663) := by
    rw [gen_energy_refrigerator, c6Scale_eval]
    simp [gen_raw_energy_refrigerator, gen_raw_cat, c6Rng, hn, hm0, hpc, summerFactor]
    norm_num
  have hr1 : gen_energy_refrigerator c6Rng wGs wPrefsEV wDay wDay2 1 = 20 * (876/663) := by
    rw [gen_energy_refrigerator, c6Scale_eval]
    simp [gen_raw_energy_refrigerator, gen_raw_cat, c6Rng, hn, hm1, hpc, summerFactor]
    norm_num
  have hcs0 : gen_catSum c6Rng wGs wPrefsEV wDay wDay2 0 = (532/5 + 397/2) * (876/663) := by
    rw [gen_catSum, gen_energy_ev, gen_energy_hot_tub, gen_energy_refrigerator,
      gen_energy_freezer, gen_energy_cooker, gen_energy_dishwasher,
      gen_energy_washing_machine, gen_energy_dryer, gen_energy_lighting,
      gen_energy_heating, gen_energy_other, c6Scale_eval]
    simp [gen_raw_energy_ev, gen_raw_energy_hot_tub,
      gen_raw_energy_refrigerator, gen_raw_energy_freezer, gen_raw_energy_cooker,
      gen_raw_energy_dishwasher, gen_raw_energy_washing_machine, gen_raw_energy_dryer,
      gen_raw_energy_lighting, gen_raw_energy_heating, gen_raw_energy_other,
      gen_raw_cat, c6Rng, hn, hm0, hpb, hpc, hev,
      show wPrefsEV.has_hot_tub = false from rfl, summerFactor,
      winterElecFactor, fallSpringElecFactor]
    norm_num
  have hcs1 : gen_catSum c6Rng wGs wPrefsEV wDay wDay2 1 = (798/5 + 397/2) * (876/663) := by
    rw [gen_catSum, gen_energy_ev, gen_energy_hot_tub, gen_energy_refrigerator,
      gen_energy_freezer, gen_energy_cooker, gen_energy_dishwasher,
      gen_energy_washing_machine, gen_energy_dryer, gen_energy_lighting,
      gen_energy_heating, gen_energy_other, c6Scale_eval]
    simp [gen_raw_energy_ev, gen_raw_energy_hot_tub,
      gen_raw_energy_refrigerator, gen_raw_energy_freezer, gen_raw_energy_cooker,
      gen_raw_energy_dishwasher, gen_raw_energy_washing_machine, gen_raw_energy_dryer,
      gen_raw_energy_lighting, gen_raw_energy_heating, gen_raw_energy_other,
      gen_raw_cat, c6Rng, hn, hm1, hpb, hpc, hev,
      show wPrefsEV.has_hot_tub = false from rfl, summerFactor,
      winterElecFactor, fallSpringElecFactor]
    norm_num
  refine ⟨by rw [hb0, hb1], rfl, by rw [hr0, hr1], by rw [hev0, hev1]; norm_num, ?_⟩
  have hhp : wPrefsEV.has_heat_pump = false := rfl
  simp only [gen_elec_usage, clip0, gen_elec_reduction, hhp, Bool.false_eq_true, if_false,
    hb0, hb1, hcs0, hcs1, sub_zero]
  rw [max_eq_right (by norm_num), max_eq_right (by norm_num)]
  norm_num

/-- C8: monthly aggregation of a daily table whose ten rows span exactly
one month boundary (Jan 28 through Feb 6, 2024) yields exactly two output
rows, with dates forced to the first calendar day of each month (Jan 1 and
Feb 1) and every numeric column equal to the sum of the corresponding
subset of daily rows — for arbitrary numeric contents of the ten rows. -/
theorem C8_month_boundary (r0 r1 r2 r3 r4 r5 r6 r7 r8 r9 : Row)
    (h0 : r0.date = ⟨2024, 1, 28⟩) (h1 : r1.date = ⟨2024, 1, 29⟩)
    (h2 : r2.date = ⟨2024, 1, 30⟩) (h3 : r3.date = ⟨2024, 1, 31⟩)
    (h4 : r4.date = ⟨2024, 2, 1⟩) (h5 : r5.date = ⟨2024, 2, 2⟩)
    (h6 : r6.date = ⟨2024, 2, 3⟩) (h7 : r7.date = ⟨2024, 2, 4⟩)
    (h8 : r8.date = ⟨2024, 2, 5⟩) (h9 : r9.date = ⟨2024, 2, 6⟩) :
    aggregateMonthly [r0, r1, r2, r3, r4, r5, r6, r7, r8, r9] =
      [sumRow [r0, r1, r2, r3] ⟨2024, 1, 1⟩ 1,
       sumRow [r4, r5, r6, r7, r8, r9] ⟨2024, 2, 1⟩ 2] := by
  have hkeys : List.map monthKey [r0, r1, r2, r3, r4, r5, r6, r7, r8, r9] =
      [((2024:Int), 1), (2024, 1), (2024, 1), (2024, 1), (2024, 2), (2024, 2),
       (2024, 2), (2024, 2), (2024, 2), (2024, 2)] := by
    simp [monthKey, h0, h1, h2, h3, h4, h5, h6, h7, h8, h9]
  have hsort : sortKeys
      [((2024:Int), 1), (2024, 1), (2024, 1), (2024, 1), (2024, 2), (2024, 2),
       (2024, 2), (2024, 2), (2024, 2), (2024, 2)] = [(2024, 1), (2024, 2)] := by
    decide
  rw [aggregateMonthly, hkeys, hsort]
  simp [groupRows, monthKey, h0, h1, h2, h3, h4, h5, h6, h7, h8, h9]

/-- Witness for C8: the boundary scenario instantiated with concrete rows
(every numeric column 1). -/
theorem C8_month_boundary_witness :
    aggregateMonthly
      [c8Row ⟨2024, 1, 28⟩, c8Row ⟨2024, 1, 29⟩, c8Row ⟨2024, 1, 30⟩, c8Row ⟨2024, 1, 31⟩,
       c8Row ⟨2024, 2, 1⟩, c8Row ⟨2024, 2, 2⟩, c8Row ⟨2024, 2, 3⟩, c8Row ⟨2024, 2, 4⟩,
       c8Row ⟨2024, 2, 5⟩, c8Row ⟨2024, 2, 6⟩] =
      [sumRow [c8Row ⟨2024, 1, 28⟩, c8Row ⟨2024, 1, 29⟩, c8Row ⟨2024, 1, 30⟩,
         c8Row ⟨2024, 1, 31⟩] ⟨2024, 1, 1⟩ 1,
       sumRow [c8Row ⟨2024, 2, 1⟩, c8Row ⟨2024, 2, 2⟩, c8Row ⟨2024, 2, 3⟩,
         c8Row ⟨2024, 2, 4⟩, c8Row ⟨2024, 2, 5⟩, c8Row ⟨2024, 2, 6⟩] ⟨2024, 2, 1⟩ 2] :=
  C8_month_boundary _ _ _ _ _ _ _ _ _ _ rfl rfl rfl rfl rfl rfl rfl rfl rfl rfl

end Veitur

